import Mathlib

/-!
Formal model of the PF_test credential service.

The repository is a FastAPI application: `app.py` (signup / login / me /
reset_email endpoints), `deps.py` (the `get_current_user` bearer-token
dependency) and `database.py` (a sqlite table mapping an email to a
JSON-serialized user dict).  The password/JWT helpers (`utils.py`) and the
pydantic schemas (`schemas.py`) are imported by the application but are not
part of the source tree; where they are needed they are modelled from the
spec and marked as such.

The development has two layers:

* a byte-level model of `database.py` (JSON encoding of flat string
  dictionaries, and the sqlite table as a key-value map), over which the
  key-value laws are proved;
* a record-level model of `app.py`/`deps.py`, in which the credential store
  is a map from email to `UserRecord` — justified by the key-value laws of
  the lower layer, since the handlers only touch the store through
  `get_data` / `insert_data` / `delete_data` on single keys.
-/

namespace PFTest

/-! ## Records and the credential store (app layer)

`app.py` stores one dict per user with keys `email`, `password` (the hash)
and `id` (a UUID string). -/

structure UserRecord where
  email : String
  password : String
  id : String
deriving DecidableEq, Repr

/-- The credential store seen by `app.py`: a map from email to the stored
user record (`database.get_data` returns `None` for an absent key). -/
abbrev Store := String → Option UserRecord

/-- Effect of `database.insert_data` (INSERT OR REPLACE on the primary key
`email`) at the record level. -/
def insert_store (st : Store) (email : String) (u : UserRecord) : Store :=
  fun e => if e = email then some u else st e

/-- Effect of `database.delete_data` (DELETE WHERE email = ?) at the record
level. -/
def delete_store (st : Store) (email : String) : Store :=
  fun e => if e = email then none else st e

/-! ## Password hashing -/

/-- Modelled from the spec: `utils.py` (absent from the source tree)
provides `get_hashed_password`, a salted one-way hash (bcrypt family,
§4.1).  Salt generation is irrelevant to every claim below; the model is
deterministic, keeping the contract that `verify_password p (hash p)`
holds. -/
def get_hashed_password (password : String) : String :=
  "$2b$12$" ++ password

/-- Modelled from the spec: `utils.py`'s `verify_password p h` checks the
plaintext against the stored hash, returning a Bool (no exception for a
wrong password, §4.1). -/
def verify_password (password stored : String) : Bool :=
  stored == get_hashed_password password

/-! ## Tokens

Modelled from the spec (§4.2): `utils.py`'s `create_access_token` /
`create_refresh_token` mint a JWT whose claims are the subject (the user's
email) and an absolute expiry `now + ttl`, signed with a process-wide
secret key by an HMAC-class algorithm.  The MAC is idealized: a signature
is the pair (key, signed claims), so it verifies exactly when the token was
signed with the same key over the same claims. -/

/-- Decoded (unvalidated) JWT claims.  A claim may be absent, which models a
malformed payload (pydantic's `TokenPayload(**payload)` then raises
`ValidationError`). -/
structure RawClaims where
  sub : Option String
  exp : Option Int
deriving DecidableEq, Repr

/-- A signed token: the claims plus an idealized MAC over them. -/
structure RawToken where
  claims : RawClaims
  sig : String × RawClaims
deriving DecidableEq, Repr

/-- Modelled from the spec: signing with the process secret key. -/
def jwt_encode (key : String) (c : RawClaims) : RawToken :=
  ⟨c, (key, c)⟩

/-- Modelled from the spec: minting a token for `subject` at time `now`
with time-to-live `ttl` (the access/refresh distinction is only the ttl
value). -/
def create_token (key subject : String) (now ttl : Int) : RawToken :=
  jwt_encode key ⟨some subject, some (now + ttl)⟩

/-- Modelled from the spec: `jose.jwt.decode` — verify the signature and
return the claims; a bad signature raises `JWTError` (`none` here). -/
def jwt_decode (key : String) (t : RawToken) : Option RawClaims :=
  if t.sig = (key, t.claims) then some t.claims else none

/-- The validated payload (`schemas.TokenPayload`): subject and expiry. -/
structure TokenPayload where
  sub : String
  exp : Int
deriving DecidableEq, Repr

/-- `TokenPayload(**payload)`: pydantic validation of the decoded claims;
`none` models `ValidationError` on a missing/malformed claim. -/
def tokenPayloadOf (c : RawClaims) : Option TokenPayload :=
  match c.sub, c.exp with
  | some s, some e => some ⟨s, e⟩
  | _, _ => none

/-! ## HTTP errors -/

/-- An `HTTPException(status_code, detail)`. -/
structure HTTPException where
  statusCode : Nat
  detail : String
deriving DecidableEq, Repr

/-! ## deps.py: token validation and the current-user dependency -/

/-- The `try` block of `deps.py:get_current_user` (lines 53-68): decode and
verify the signature, validate the payload shape, then compare the expiry
against the current time.  A `JWTError` or `ValidationError` is caught and
turned into 403 "Could not validate credentials"; an expired token raises
401 "Token expired" (an `HTTPException`, which the `except` clause does not
catch).  The Python comparison `datetime.fromtimestamp(exp) < datetime.now()`
is the strict numeric comparison `exp < now`. -/
def validate_token (key : String) (now : Int) (t : RawToken) :
    Except HTTPException TokenPayload :=
  match jwt_decode key t with
  | none => .error ⟨403, "Could not validate credentials"⟩
  | some claims =>
    match tokenPayloadOf claims with
    | none => .error ⟨403, "Could not validate credentials"⟩
    | some p =>
      if p.exp < now then .error ⟨401, "Token expired"⟩
      else .ok p

/-- Outcome of running `deps.py:get_current_user` to completion. -/
inductive UserDepOutcome where
  /-- The dependency returned a user. -/
  | ok (u : UserRecord)
  /-- The dependency raised an `HTTPException`. -/
  | httpError (e : HTTPException)
  /-- The dependency raised `NameError`: line 70 of `deps.py` reads
  `db.get(token_data.sub, None)` but no name `db` is imported or defined
  anywhere in the module. -/
  | nameError
deriving DecidableEq, Repr

/-- `deps.py:get_current_user` as written in the source: after successful
token validation it evaluates `db.get(...)` where `db` is an undefined
name, so every validated request ends in `NameError`. -/
def get_current_user (key : String) (now : Int) (t : RawToken) :
    UserDepOutcome :=
  match validate_token key now t with
  | .error e => .httpError e
  | .ok _ => .nameError

/-- Modelled from the spec: the intended `get_current_user` (§4.3 whoAmI
steps 2-3, and the module's own docstring) — after validation, look the
token's subject up in the credential store; absent subject is 404 "Could
not find user", otherwise return the record. -/
def get_current_user_spec (key : String) (now : Int) (st : Store)
    (t : RawToken) : Except HTTPException UserRecord :=
  match validate_token key now t with
  | .error e => .error e
  | .ok p =>
    match st p.sub with
    | none => .error ⟨404, "Could not find user"⟩
    | some u => .ok u

/-! ## app.py: the four handlers

Each handler returns its result together with the store after the call, so
frame properties are statable. -/

/-- `app.py:create_user` (the `/signup` handler): reject an email that is
already present with 400, otherwise hash the password, generate a fresh id
(`str(uuid4())`, passed here as the parameter `freshId`), insert the record
and return it. -/
def create_user (st : Store) (email password freshId : String) :
    Except HTTPException UserRecord × Store :=
  match st email with
  | some _ => (.error ⟨400, "User with this email already exists"⟩, st)
  | none =>
    let user : UserRecord := ⟨email, get_hashed_password password, freshId⟩
    (.ok user, insert_store st email user)

/-- The `/login` response body (`schemas.TokenSchema`). -/
structure TokenSchema where
  access_token : RawToken
  refresh_token : RawToken
deriving DecidableEq, Repr

/-- `app.py:login`: look the form username up; absent → 400 "Incorrect
email or password"; wrong password → the same 400; otherwise mint an access
and a refresh token for the record's email.  No store mutation on any
path. -/
def login (key : String) (now accessTtl refreshTtl : Int) (st : Store)
    (username password : String) :
    Except HTTPException TokenSchema × Store :=
  match st username with
  | none => (.error ⟨400, "Incorrect email or password"⟩, st)
  | some user =>
    if verify_password password user.password then
      (.ok ⟨create_token key user.email now accessTtl,
            create_token key user.email now refreshTtl⟩, st)
    else (.error ⟨400, "Incorrect email or password"⟩, st)

/-- `app.py:reset_email`: authenticate exactly as `login` does (same 400
on unknown email or wrong password), then delete the row under the old
email, overwrite the dict's `email` and `password` fields, insert it under
the new email, and return it.  No uniqueness check on `new_email`. -/
def reset_email (st : Store) (email new_email password new_password : String) :
    Except HTTPException UserRecord × Store :=
  match st email with
  | none => (.error ⟨400, "Incorrect email or password"⟩, st)
  | some user =>
    if verify_password password user.password then
      let st1 := delete_store st email
      let user2 : UserRecord :=
        { user with email := new_email,
                    password := get_hashed_password new_password }
      (.ok user2, insert_store st1 new_email user2)
    else (.error ⟨400, "Incorrect email or password"⟩, st)

/-! ## database.py: the sqlite table and the JSON codec

`database.py` keeps one table `json_data (email TEXT PRIMARY KEY, data
TEXT NOT NULL)`.  `insert_data` runs INSERT OR REPLACE with
`json.dumps(data)`, `get_data` runs a SELECT and `json.loads` the row, and
`delete_data` runs a DELETE.  The values stored by the application are flat
dicts of strings, so the codec is modelled for JSON objects whose keys and
values are strings, at the character-list level.  `json.dumps` (default
separators) renders such a dict as `{"k": "v", "k2": "v2"}`; the model
writes characters literally, which agrees with Python exactly on strings of
printable ASCII free of `"` and backslash (every value the application
stores — emails, bcrypt hashes, UUID strings — is in this set). -/

/-- A flat JSON object: a list of key-value string pairs. -/
abbrev Assoc := List (List Char × List Char)

/-- JSON rendering of one string (no escapes; see the well-formedness
predicate `jsonSafe`). -/
def encStr (s : List Char) : List Char :=
  '"' :: (s ++ ['"'])

/-- JSON rendering of one `"key": "value"` entry (default `json.dumps`
separators, i.e. `": "` between key and value). -/
def encEntry (kv : List Char × List Char) : List Char :=
  encStr kv.1 ++ (':' :: (' ' :: encStr kv.2))

/-- JSON rendering of the comma-separated entry list (separator `", "`). -/
def encEntries : Assoc → List Char
  | [] => []
  | [kv] => encEntry kv
  | kv :: rest => encEntry kv ++ (',' :: (' ' :: encEntries rest))

/-- `json.dumps` of a flat string dict. -/
def dumps (l : Assoc) : List Char :=
  '{' :: (encEntries l ++ ['}'])

/-- Consume characters up to the closing quote of a JSON string literal. -/
def parseStrAux : List Char → Option (List Char × List Char)
  | [] => none
  | c :: rest =>
    if c = '"' then some ([], rest)
    else (parseStrAux rest).map (fun p => (c :: p.1, p.2))

/-- Parse a JSON string literal. -/
def parseStr : List Char → Option (List Char × List Char)
  | '"' :: rest => parseStrAux rest
  | _ => none

/-- Parse one `"key": "value"` entry. -/
def parseEntry (s : List Char) : Option ((List Char × List Char) × List Char) :=
  match parseStr s with
  | none => none
  | some (k, rest) =>
    match rest with
    | ':' :: ' ' :: rest2 =>
      match parseStr rest2 with
      | none => none
      | some (v, rest3) => some ((k, v), rest3)
    | _ => none

/-- Parse the entry list of a non-empty object, up to and including the
closing brace.  `fuel` bounds the recursion; one unit is spent per entry. -/
def parseEntriesAux : Nat → List Char → Option (Assoc × List Char)
  | 0, _ => none
  | fuel + 1, s =>
    match parseEntry s with
    | none => none
    | some (kv, rest) =>
      match rest with
      | '}' :: rest2 => some ([kv], rest2)
      | ',' :: ' ' :: rest2 =>
        match parseEntriesAux fuel rest2 with
        | none => none
        | some (kvs, rest3) => some (kv :: kvs, rest3)
      | _ => none

/-- Body of an object after the opening brace: either an immediate closing
brace (empty dict) or an entry list. -/
def parseObjBody (fuel : Nat) (s : List Char) : Option (Assoc × List Char) :=
  match s with
  | [] => parseEntriesAux fuel []
  | c :: rest => if c = '}' then some ([], rest) else parseEntriesAux fuel (c :: rest)

/-- `json.loads` restricted to flat string dicts: `none` models the raised
`JSONDecodeError` (also on trailing input, which Python rejects). -/
def loads (s : List Char) : Option Assoc :=
  match s with
  | '{' :: rest =>
    match parseObjBody rest.length rest with
    | some (kvs, rem) => if rem.isEmpty then some kvs else none
    | none => none
  | _ => none

/-- A character that `json.dumps` renders as itself: printable ASCII,
neither `"` nor backslash. -/
def jsonSafeChar (c : Char) : Bool :=
  0x20 ≤ c.toNat && c.toNat ≤ 0x7e && c ≠ '"' && c ≠ '\\'

/-- A string rendered literally by `json.dumps`. -/
def jsonSafe (s : List Char) : Bool :=
  s.all jsonSafeChar

/-- A flat dict whose keys and values are all rendered literally. -/
def wfAssoc (l : Assoc) : Bool :=
  l.all (fun kv => jsonSafe kv.1 && jsonSafe kv.2)

/-- The sqlite table: email to the stored `data` text column. -/
abbrev DB := String → Option (List Char)

/-- `database.insert_data`: INSERT OR REPLACE of `json.dumps(data)` under
the primary key `email`. -/
def insert_data (db : DB) (email : String) (data : Assoc) : DB :=
  fun e => if e = email then some (dumps data) else db e

/-- `database.delete_data`: DELETE of the row under `email`. -/
def delete_data (db : DB) (email : String) : DB :=
  fun e => if e = email then none else db e

/-- `database.get_data`: SELECT the row and `json.loads` it.  The outer
`Option` is raising: `none` is the `JSONDecodeError` path; `some none` is a
missing row (Python returns `None`); `some (some d)` is a decoded dict. -/
def get_data (db : DB) (email : String) : Option (Option Assoc) :=
  match db email with
  | none => some none
  | some s =>
    match loads s with
    | none => none
    | some a => some (some a)

/-! ### Round-trip of the JSON codec -/

theorem parseStrAux_enc (s rest : List Char) (h : '"' ∉ s) :
    parseStrAux (s ++ ('"' :: rest)) = some (s, rest) := by
  induction s with
  | nil => simp [parseStrAux]
  | cons c s ih =>
    have hc : c ≠ '"' := fun hc => h (hc ▸ List.mem_cons_self c s)
    have hs : '"' ∉ s := fun hs => h (List.mem_cons_of_mem c hs)
    simp [parseStrAux, hc, ih hs]

theorem parseStr_enc (s rest : List Char) (h : '"' ∉ s) :
    parseStr (encStr s ++ rest) = some (s, rest) := by
  simp only [encStr, List.cons_append, List.append_assoc, List.singleton_append]
  exact parseStrAux_enc s rest h

theorem parseEntry_enc (kv : List Char × List Char) (rest : List Char)
    (hk : '"' ∉ kv.1) (hv : '"' ∉ kv.2) :
    parseEntry (encEntry kv ++ rest) = some (kv, rest) := by
  have h1 : encEntry kv ++ rest
      = encStr kv.1 ++ (':' :: (' ' :: (encStr kv.2 ++ rest))) := by
    simp [encEntry, List.append_assoc]
  rw [h1, parseEntry, parseStr_enc kv.1 _ hk]
  simp [parseStr_enc kv.2 rest hv]

theorem jsonSafe_no_quote (s : List Char) (h : jsonSafe s = true) : '"' ∉ s := by
  intro hm
  have := List.all_eq_true.mp h _ hm
  simp [jsonSafeChar] at this

theorem parseEntriesAux_enc (l : Assoc) :
    l ≠ [] → wfAssoc l = true →
    ∀ fuel, l.length ≤ fuel → ∀ rest,
      parseEntriesAux fuel (encEntries l ++ ('}' :: rest)) = some (l, rest) := by
  induction l with
  | nil => intro h; exact absurd rfl h
  | cons kv l2 ih =>
    intro _ hwf fuel hfuel rest
    have hkv := List.all_eq_true.mp hwf kv (List.mem_cons_self kv l2)
    rw [Bool.and_eq_true] at hkv
    have hk : '"' ∉ kv.1 := jsonSafe_no_quote _ hkv.1
    have hv : '"' ∉ kv.2 := jsonSafe_no_quote _ hkv.2
    obtain ⟨f, rfl⟩ : ∃ f, fuel = f + 1 := by
      cases fuel with
      | zero => simp at hfuel
      | succ f => exact ⟨f, rfl⟩
    cases l2 with
    | nil =>
      show parseEntriesAux (f + 1) (encEntry kv ++ ('}' :: rest)) = _
      have h1 := parseEntry_enc kv ('}' :: rest) hk hv
      simp only [parseEntriesAux, h1]
    | cons kv2 l3 =>
      have hwf2 : wfAssoc (kv2 :: l3) = true := by
        simp only [wfAssoc, List.all_cons, Bool.and_eq_true] at hwf ⊢
        exact hwf.2
      have harr : encEntries (kv :: kv2 :: l3) ++ ('}' :: rest)
          = encEntry kv ++ (',' :: (' ' :: (encEntries (kv2 :: l3) ++ ('}' :: rest)))) := by
        simp [encEntries, List.append_assoc]
      rw [harr]
      have hf2 : (kv2 :: l3).length ≤ f := by
        simp only [List.length_cons] at hfuel ⊢
        omega
      have hrec := ih (by simp) hwf2 f hf2 rest
      have h1 := parseEntry_enc kv
        (',' :: (' ' :: (encEntries (kv2 :: l3) ++ ('}' :: rest)))) hk hv
      simp only [parseEntriesAux, h1, hrec]

theorem parseObjBody_ne (fuel : Nat) (c : Char) (cs : List Char) (h : c ≠ '}') :
    parseObjBody fuel (c :: cs) = parseEntriesAux fuel (c :: cs) := by
  simp [parseObjBody, h]

theorem encEntries_cons_head (kv : List Char × List Char) (l2 : Assoc) :
    ∃ cs, encEntries (kv :: l2) = '"' :: cs := by
  cases l2 <;> simp [encEntries, encEntry, encStr, List.cons_append]

theorem length_encEntry (kv : List Char × List Char) :
    (encEntry kv).length = kv.1.length + kv.2.length + 6 := by
  simp only [encEntry, encStr, List.length_append, List.length_cons,
    List.length_nil]
  omega

theorem le_length_encEntries (l : Assoc) : l.length ≤ (encEntries l).length := by
  induction l with
  | nil => simp [encEntries]
  | cons kv l2 ih =>
    cases l2 with
    | nil =>
      show 1 ≤ (encEntry kv).length
      rw [length_encEntry]
      omega
    | cons kv2 l3 =>
      have h2 : encEntries (kv :: kv2 :: l3)
          = encEntry kv ++ (',' :: (' ' :: encEntries (kv2 :: l3))) := rfl
      rw [h2]
      have h1 := length_encEntry kv
      simp only [List.length_append, List.length_cons] at *
      omega

theorem loads_dumps (l : Assoc) (h : wfAssoc l = true) : loads (dumps l) = some l := by
  cases l with
  | nil => rfl
  | cons kv l2 =>
    obtain ⟨cs, hcs⟩ := encEntries_cons_head kv l2
    have hlen : (kv :: l2).length ≤ (encEntries (kv :: l2) ++ ['}']).length := by
      have h1 := le_length_encEntries (kv :: l2)
      simp only [List.length_append, List.length_cons, List.length_nil] at h1 ⊢
      omega
    have hp := parseEntriesAux_enc (kv :: l2) (by simp) h
      ((encEntries (kv :: l2) ++ ['}']).length) hlen []
    have harg : encEntries (kv :: l2) ++ ('}' :: ([] : List Char))
        = encEntries (kv :: l2) ++ ['}'] := rfl
    rw [harg] at hp
    show loads ('{' :: (encEntries (kv :: l2) ++ ['}'])) = _
    rw [loads]
    have hform : encEntries (kv :: l2) ++ ['}'] = '"' :: (cs ++ ['}']) := by
      rw [hcs]; rfl
    rw [hform, parseObjBody_ne _ _ _ (by decide), ← hform, hp]
    rfl

/-! ### Key-value laws of the store -/

theorem get_data_insert_same (db : DB) (e : String) (d : Assoc)
    (h : wfAssoc d = true) :
    get_data (insert_data db e d) e = some (some d) := by
  simp [get_data, insert_data, loads_dumps d h]

theorem get_data_delete_same (db : DB) (e : String) :
    get_data (delete_data db e) e = some none := by
  simp [get_data, delete_data]

theorem get_data_insert_other (db : DB) (e e2 : String) (d : Assoc)
    (hne : e ≠ e2) :
    get_data (insert_data db e d) e2 = get_data db e2 := by
  simp [get_data, insert_data, if_neg (Ne.symm hne)]

theorem get_data_delete_other (db : DB) (e e2 : String) (hne : e ≠ e2) :
    get_data (delete_data db e) e2 = get_data db e2 := by
  simp [get_data, delete_data, if_neg (Ne.symm hne)]

/-! ## Response serialization

Modelled from the spec: `schemas.py` (absent from the source tree) defines
the pydantic response models.  `UserOut` carries only the user's email and
id (§6: every user-facing body is restricted to those two fields;
`app.py`'s docstrings say the same), and FastAPI's `response_model`
serializes only the model's declared fields out of whatever dict the
handler returns.  `TokenSchema` carries `access_token` and
`refresh_token`.  A response body is modelled as the ordered list of
serialized key-value pairs. -/

/-- Serialization of a handler return value through
`response_model=UserOut`: only `email` and `id` survive. -/
def serializeUserOut (u : UserRecord) : List (String × String) :=
  [("email", u.email), ("id", u.id)]

/-- Compact rendering of a token into the string carried by the response
(stands for the JWT compact form). -/
def tokenCompact (t : RawToken) : String :=
  let claimsPart := fun (c : RawClaims) =>
    (match c.sub with | none => "-" | some s => s) ++ "." ++
    (match c.exp with | none => "-" | some e => toString e)
  claimsPart t.claims ++ "#" ++ t.sig.1 ++ "#" ++ claimsPart t.sig.2

/-- Serialization of a handler return value through
`response_model=TokenSchema`. -/
def serializeTokenSchema (ts : TokenSchema) : List (String × String) :=
  [("access_token", tokenCompact ts.access_token),
   ("refresh_token", tokenCompact ts.refresh_token)]

/-- The `/signup` endpoint: handler result serialized through `UserOut`. -/
def signup_endpoint (st : Store) (email password freshId : String) :
    Except HTTPException (List (String × String)) × Store :=
  ((create_user st email password freshId).1.map serializeUserOut,
   (create_user st email password freshId).2)

/-- The `/login` endpoint: handler result serialized through
`TokenSchema`. -/
def login_endpoint (key : String) (now accessTtl refreshTtl : Int)
    (st : Store) (username password : String) :
    Except HTTPException (List (String × String)) × Store :=
  ((login key now accessTtl refreshTtl st username password).1.map
     serializeTokenSchema,
   (login key now accessTtl refreshTtl st username password).2)

/-- The `/me` endpoint over the spec-modelled current-user dependency,
serialized through `UserOut`. -/
def me_endpoint (key : String) (now : Int) (st : Store) (t : RawToken) :
    Except HTTPException (List (String × String)) :=
  (get_current_user_spec key now st t).map serializeUserOut

/-- The `/reset_email` endpoint: handler result serialized through
`UserOut`. -/
def reset_endpoint (st : Store) (email new_email password new_password : String) :
    Except HTTPException (List (String × String)) × Store :=
  ((reset_email st email new_email password new_password).1.map serializeUserOut,
   (reset_email st email new_email password new_password).2)

/-! ## Concrete sample data (used by witnesses and counterexamples) -/

/-- Alice's stored record, as it stands after `signup("a@x.com", "pw")`
assigned the id `U1`. -/
def aliceRecord : UserRecord :=
  ⟨"a@x.com", get_hashed_password "pw", "U1"⟩

/-- A store holding exactly Alice's record. -/
def aliceStore : Store :=
  fun e => if e = "a@x.com" then some aliceRecord else none

/-- Bob's stored record under a second email. -/
def bobRecord : UserRecord :=
  ⟨"b@x.com", get_hashed_password "pwb", "U2"⟩

/-- A store holding Alice's and Bob's records. -/
def aliceBobStore : Store :=
  fun e =>
    if e = "a@x.com" then some aliceRecord
    else if e = "b@x.com" then some bobRecord
    else none

/-! ## Claims -/

/-- C1 (amended).  A token minted at time `m` with TTL `t` carries expiry
`m + t`; validation succeeds at any time at or before `m + t`, and
strictly after `m + t` it fails with the TokenExpired error kind
(HTTP 401, detail "Token expired"), not with TokenInvalid.  (The claim
said failure begins at `m + t`; the source's strict comparison
`datetime.fromtimestamp(exp) < datetime.now()` lets the token validate at
exactly `m + t`.) -/
theorem c1_token_expiry (key subject : String) (m t v : Int) :
    (v ≤ m + t →
      validate_token key v (create_token key subject m t) = .ok ⟨subject, m + t⟩) ∧
    (m + t < v →
      validate_token key v (create_token key subject m t)
        = .error ⟨401, "Token expired"⟩) := by
  refine ⟨fun h => ?_, fun h => ?_⟩
  · simp [validate_token, create_token, jwt_encode, jwt_decode, tokenPayloadOf,
      not_lt.mpr h]
  · simp [validate_token, create_token, jwt_encode, jwt_decode, tokenPayloadOf, h]

/-- Witness for C1: a token with TTL 5 minted at time 0 validates at time
3 and is rejected as expired at time 7. -/
theorem c1_token_expiry_witness :
    validate_token "k" 3 (create_token "k" "s" 0 5) = .ok ⟨"s", 0 + 5⟩ ∧
    validate_token "k" 7 (create_token "k" "s" 0 5)
      = .error ⟨401, "Token expired"⟩ :=
  ⟨(c1_token_expiry "k" "s" 0 5 3).1 (by norm_num),
   (c1_token_expiry "k" "s" 0 5 7).2 (by norm_num)⟩

/-- C1 counterexample.  At exactly `now + t` (token minted at 0 with TTL 5,
validated at time 5) validation still succeeds, where the claim requires a
TokenExpired failure "at or after now + t". -/
theorem c1_boundary_counterexample :
    (0 : Int) + 5 ≤ 5 ∧
    validate_token "k" 5 (create_token "k" "s" 0 5) = .ok ⟨"s", 5⟩ :=
  ⟨by norm_num, rfl⟩

/-- C2 (code bug).  After a token passes validation, `deps.py` line 70
evaluates `db.get(token_data.sub, None)`, but no name `db` is defined or
imported in the module, so the dependency ends in `NameError` for every
validated token — the credential store is never consulted.  The conjuncts
exhibit: the crash on a valid unexpired token; that the subject does exist
in the store; and the spec's intended behavior (lookup returning the
record, 404 when the subject is absent). -/
theorem c2_me_crashes_namerror :
    get_current_user "k" 0 (create_token "k" "a@x.com" 0 5) = .nameError ∧
    aliceStore "a@x.com" = some aliceRecord ∧
    get_current_user_spec "k" 0 aliceStore (create_token "k" "a@x.com" 0 5)
      = .ok aliceRecord ∧
    get_current_user_spec "k" 0 (fun _ => none) (create_token "k" "a@x.com" 0 5)
      = .error ⟨404, "Could not find user"⟩ :=
  ⟨rfl, rfl, rfl, rfl⟩

/-- C3.  In `reset_email`, when the new email equals the old one the
delete-then-insert still runs and acts as an overwrite of that record
(same key, new hash, same id); and when the new email is a different
existing user's email, that user's record is replaced by the resetting
user's new record — no uniqueness check is performed on the new email. -/
theorem c3_reset_overwrite (st : Store) (email new_email pw npw : String)
    (u : UserRecord) (h1 : st email = some u)
    (h2 : verify_password pw u.password = true) :
    ((reset_email st email email pw npw).1
        = .ok ⟨email, get_hashed_password npw, u.id⟩ ∧
      (reset_email st email email pw npw).2 email
        = some ⟨email, get_hashed_password npw, u.id⟩) ∧
    (∀ v : UserRecord, st new_email = some v → new_email ≠ email →
      (reset_email st email new_email pw npw).2 new_email
        = some ⟨new_email, get_hashed_password npw, u.id⟩) := by
  obtain ⟨ue, upw, uid⟩ := u
  refine ⟨⟨?_, ?_⟩, fun v hv hne => ?_⟩ <;>
    simp [reset_email, login, h1, h2, insert_store, delete_store]

/-- Witness for C3: resetting Alice to her own email overwrites her
record in place; resetting Alice to Bob's email replaces Bob's record
with Alice's new one (Bob's id `U2` is gone, Alice's `U1` is under
`b@x.com`). -/
theorem c3_reset_overwrite_witness :
    (reset_email aliceBobStore "a@x.com" "a@x.com" "pw" "pw2").2 "a@x.com"
      = some ⟨"a@x.com", get_hashed_password "pw2", "U1"⟩ ∧
    (reset_email aliceBobStore "a@x.com" "b@x.com" "pw" "pw2").2 "b@x.com"
      = some ⟨"b@x.com", get_hashed_password "pw2", "U1"⟩ :=
  ⟨(c3_reset_overwrite aliceBobStore "a@x.com" "b@x.com" "pw" "pw2"
      aliceRecord rfl rfl).1.2,
   (c3_reset_overwrite aliceBobStore "a@x.com" "b@x.com" "pw" "pw2"
      aliceRecord rfl rfl).2 bobRecord rfl (by decide)⟩

/-- C4.  A `login` with an email absent from the store and a `login` with
a present email but a failing password produce the same error — 400 with
detail "Incorrect email or password" — and likewise `reset_email`, so the
caller cannot distinguish unknown-email from wrong-password. -/
theorem c4_error_indistinguishability (key : String) (now aTtl rTtl : Int)
    (st1 st2 : Store) (e1 e2 p1 p2 ne1 ne2 np1 np2 : String) (u : UserRecord)
    (h1 : st1 e1 = none) (h2 : st2 e2 = some u)
    (h3 : verify_password p2 u.password = false) :
    (login key now aTtl rTtl st1 e1 p1).1
      = .error ⟨400, "Incorrect email or password"⟩ ∧
    (login key now aTtl rTtl st2 e2 p2).1
      = .error ⟨400, "Incorrect email or password"⟩ ∧
    (reset_email st1 e1 ne1 p1 np1).1
      = .error ⟨400, "Incorrect email or password"⟩ ∧
    (reset_email st2 e2 ne2 p2 np2).1
      = .error ⟨400, "Incorrect email or password"⟩ := by
  refine ⟨?_, ?_, ?_, ?_⟩ <;> simp [login, reset_email, h1, h2, h3]

/-- Witness for C4: an unknown email (`c@x.com`) and Alice's email with a
wrong password yield the identical 400 error, for both endpoints. -/
theorem c4_error_indistinguishability_witness :
    (login "k" 0 5 60 aliceStore "c@x.com" "whatever").1
      = .error ⟨400, "Incorrect email or password"⟩ ∧
    (login "k" 0 5 60 aliceStore "a@x.com" "bad").1
      = .error ⟨400, "Incorrect email or password"⟩ ∧
    (reset_email aliceStore "c@x.com" "n@x.com" "whatever" "np").1
      = .error ⟨400, "Incorrect email or password"⟩ ∧
    (reset_email aliceStore "a@x.com" "n@x.com" "bad" "np").1
      = .error ⟨400, "Incorrect email or password"⟩ :=
  c4_error_indistinguishability "k" 0 5 60 aliceStore aliceStore
    "c@x.com" "a@x.com" "whatever" "bad" "n@x.com" "n@x.com" "np" "np"
    aliceRecord rfl rfl (by decide)

/-- C5 (amended).  When the old password verifies and the new email
differs from the old one, `reset_email` returns and stores a record with
the same id under the new email, the old email no longer resolves, and a
subsequent login with the old email and old password fails.  (The claim
asserted the final login failure unconditionally; when the new email
equals the old email and the new password equals the old password the
reset is an overwrite with identical credentials and that login
succeeds.) -/
theorem c5_reset_postcondition (st : Store) (email new_email pw npw : String)
    (u : UserRecord) (key : String) (now aTtl rTtl : Int)
    (h1 : st email = some u) (h2 : verify_password pw u.password = true)
    (h3 : new_email ≠ email) :
    (reset_email st email new_email pw npw).1
      = .ok ⟨new_email, get_hashed_password npw, u.id⟩ ∧
    (reset_email st email new_email pw npw).2 email = none ∧
    (reset_email st email new_email pw npw).2 new_email
      = some ⟨new_email, get_hashed_password npw, u.id⟩ ∧
    (login key now aTtl rTtl (reset_email st email new_email pw npw).2 email pw).1
      = .error ⟨400, "Incorrect email or password"⟩ := by
  obtain ⟨ue, upw, uid⟩ := u
  have h4 := Ne.symm h3
  refine ⟨?_, ?_, ?_, ?_⟩ <;>
    simp [reset_email, login, h1, h2, insert_store, delete_store, h3, h4]

/-- Witness for C5: Alice resets `a@x.com` to `a2@x.com` with a new
password; the id `U1` is preserved, the old email is gone, and her old
login fails. -/
theorem c5_reset_postcondition_witness :
    (reset_email aliceStore "a@x.com" "a2@x.com" "pw" "pw2").1
      = .ok ⟨"a2@x.com", get_hashed_password "pw2", "U1"⟩ ∧
    (reset_email aliceStore "a@x.com" "a2@x.com" "pw" "pw2").2 "a@x.com" = none ∧
    (reset_email aliceStore "a@x.com" "a2@x.com" "pw" "pw2").2 "a2@x.com"
      = some ⟨"a2@x.com", get_hashed_password "pw2", "U1"⟩ ∧
    (login "k" 0 5 60 (reset_email aliceStore "a@x.com" "a2@x.com" "pw" "pw2").2
        "a@x.com" "pw").1
      = .error ⟨400, "Incorrect email or password"⟩ :=
  c5_reset_postcondition aliceStore "a@x.com" "a2@x.com" "pw" "pw2"
    aliceRecord "k" 0 5 60 rfl rfl (by decide)

/-- C5 counterexample.  The claim's premises hold (Alice's record is under
`a@x.com` and the old password verifies), she resets with
`new_email = email` and `new_password = password`, and the subsequent
login with the old email and old password succeeds, contradicting the
claim's unconditional "subsequent login ... fails". -/
theorem c5_same_credentials_counterexample :
    aliceStore "a@x.com" = some aliceRecord ∧
    verify_password "pw" aliceRecord.password = true ∧
    (login "k" 0 5 60 (reset_email aliceStore "a@x.com" "a@x.com" "pw" "pw").2
        "a@x.com" "pw").1
      = .ok ⟨create_token "k" "a@x.com" 0 5, create_token "k" "a@x.com" 0 60⟩ :=
  ⟨rfl, rfl, rfl⟩

/-- C6.  A token whose signature does not verify (signed with a different
key, or claims that differ from the signed ones) or whose payload is
malformed (a required claim missing) fails validation with the
TokenInvalid error kind — HTTP 403, detail "Could not validate
credentials" — and never with TokenExpired, regardless of the current
time. -/
theorem c6_invalid_token_forbidden (key : String) (now : Int) (t : RawToken)
    (h : t.sig ≠ (key, t.claims) ∨ tokenPayloadOf t.claims = none) :
    validate_token key now t = .error ⟨403, "Could not validate credentials"⟩ := by
  rcases h with h | h
  · simp [validate_token, jwt_decode, h]
  · by_cases hs : t.sig = (key, t.claims)
    · simp [validate_token, jwt_decode, hs, h]
    · simp [validate_token, jwt_decode, hs]

/-- Witness for C6: a token signed with key `k2` is rejected under key `k`
with 403, and a correctly signed token missing its `exp` claim is rejected
with 403 even long after any plausible expiry. -/
theorem c6_invalid_token_forbidden_witness :
    validate_token "k" 0 (jwt_encode "k2" ⟨some "s", some 5⟩)
      = .error ⟨403, "Could not validate credentials"⟩ ∧
    validate_token "k" 99 (jwt_encode "k" ⟨some "s", none⟩)
      = .error ⟨403, "Could not validate credentials"⟩ :=
  ⟨c6_invalid_token_forbidden "k" 0 (jwt_encode "k2" ⟨some "s", some 5⟩)
      (.inl (by decide)),
   c6_invalid_token_forbidden "k" 99 (jwt_encode "k" ⟨some "s", none⟩)
      (.inr rfl)⟩

/-- C7.  `create_user` with an email already present fails with 400 "User
with this email already exists" and leaves the store unchanged, for every
password; with an absent email it inserts the record built from the email,
the password hash and the freshly generated id, and returns that
record. -/
theorem c7_signup (st : Store) (email pw freshId : String) :
    (∀ u, st email = some u →
      create_user st email pw freshId
        = (.error ⟨400, "User with this email already exists"⟩, st)) ∧
    (st email = none →
      create_user st email pw freshId
        = (.ok ⟨email, get_hashed_password pw, freshId⟩,
           insert_store st email ⟨email, get_hashed_password pw, freshId⟩)) := by
  constructor
  · intro u hu; simp [create_user, hu]
  · intro h; simp [create_user, h]

/-- Witness for C7: signing Alice's email up again fails and leaves the
store as it was; signing a fresh email up inserts and returns the new
record. -/
theorem c7_signup_witness :
    create_user aliceStore "a@x.com" "pw2" "U9"
      = (.error ⟨400, "User with this email already exists"⟩, aliceStore) ∧
    create_user aliceStore "c@x.com" "pw3" "U3"
      = (.ok ⟨"c@x.com", get_hashed_password "pw3", "U3"⟩,
         insert_store aliceStore "c@x.com"
           ⟨"c@x.com", get_hashed_password "pw3", "U3"⟩) :=
  ⟨(c7_signup aliceStore "a@x.com" "pw2" "U9").1 aliceRecord rfl,
   (c7_signup aliceStore "c@x.com" "pw3" "U3").2 rfl⟩

/-- C8 (amended).  Successful `signup`, `me` and `reset_email` responses
serialize exactly the `email` and `id` fields; a successful `login`
response serializes exactly `access_token` and `refresh_token`; in no case
does a response body carry a `password` field.  (The claim said all four
bodies contain only `email` and `id`; the login body consists of the two
token fields instead.) -/
theorem c8_response_bodies (key : String) (now aTtl rTtl : Int) (st : Store)
    (email pw freshId nemail npw : String) (t : RawToken)
    (body : List (String × String)) :
    ((signup_endpoint st email pw freshId).1 = .ok body →
      body.map Prod.fst = ["email", "id"] ∧ "password" ∉ body.map Prod.fst) ∧
    ((reset_endpoint st email nemail pw npw).1 = .ok body →
      body.map Prod.fst = ["email", "id"] ∧ "password" ∉ body.map Prod.fst) ∧
    (me_endpoint key now st t = .ok body →
      body.map Prod.fst = ["email", "id"] ∧ "password" ∉ body.map Prod.fst) ∧
    ((login_endpoint key now aTtl rTtl st email pw).1 = .ok body →
      body.map Prod.fst = ["access_token", "refresh_token"] ∧
      "password" ∉ body.map Prod.fst) := by
  refine ⟨fun h => ?_, fun h => ?_, fun h => ?_, fun h => ?_⟩
  · cases hr : (create_user st email pw freshId).1 with
    | error e => rw [signup_endpoint, hr] at h; exact absurd h (by simp [Except.map])
    | ok u =>
      rw [signup_endpoint, hr] at h
      have hb : body = serializeUserOut u := by
        simpa [Except.map] using h.symm
      simp [hb, serializeUserOut]
  · cases hr : (reset_email st email nemail pw npw).1 with
    | error e => rw [reset_endpoint, hr] at h; exact absurd h (by simp [Except.map])
    | ok u =>
      rw [reset_endpoint, hr] at h
      have hb : body = serializeUserOut u := by
        simpa [Except.map] using h.symm
      simp [hb, serializeUserOut]
  · cases hr : get_current_user_spec key now st t with
    | error e => rw [me_endpoint, hr] at h; exact absurd h (by simp [Except.map])
    | ok u =>
      rw [me_endpoint, hr] at h
      have hb : body = serializeUserOut u := by
        simpa [Except.map] using h.symm
      simp [hb, serializeUserOut]
  · cases hr : (login key now aTtl rTtl st email pw).1 with
    | error e => rw [login_endpoint, hr] at h; exact absurd h (by simp [Except.map])
    | ok ts =>
      rw [login_endpoint, hr] at h
      have hb : body = serializeTokenSchema ts := by
        simpa [Except.map] using h.symm
      simp [hb, serializeTokenSchema]

/-- Witness for C8: each of the four endpoints succeeds on concrete input
and its body has exactly the stated keys. -/
theorem c8_response_bodies_witness :
    ([("email", "c@x.com"), ("id", "U3")] : List (String × String)).map Prod.fst
      = ["email", "id"] ∧
    ([("email", "a2@x.com"), ("id", "U1")] : List (String × String)).map Prod.fst
      = ["email", "id"] ∧
    ([("email", "a@x.com"), ("id", "U1")] : List (String × String)).map Prod.fst
      = ["email", "id"] ∧
    (serializeTokenSchema ⟨create_token "k" "a@x.com" 0 5,
        create_token "k" "a@x.com" 0 60⟩).map Prod.fst
      = ["access_token", "refresh_token"] :=
  ⟨((c8_response_bodies "k" 0 5 60 aliceStore "c@x.com" "pw3" "U3" "n@x.com"
      "np" (create_token "k" "a@x.com" 0 5)
      [("email", "c@x.com"), ("id", "U3")]).1 rfl).1,
   ((c8_response_bodies "k" 0 5 60 aliceStore "a@x.com" "pw" "U9" "a2@x.com"
      "pw2" (create_token "k" "a@x.com" 0 5)
      [("email", "a2@x.com"), ("id", "U1")]).2.1 rfl).1,
   ((c8_response_bodies "k" 0 5 60 aliceStore "a@x.com" "pw" "U9" "n@x.com"
      "np" (create_token "k" "a@x.com" 0 5)
      [("email", "a@x.com"), ("id", "U1")]).2.2.1 rfl).1,
   ((c8_response_bodies "k" 0 5 60 aliceStore "a@x.com" "pw" "U9" "n@x.com"
      "np" (create_token "k" "a@x.com" 0 5)
      (serializeTokenSchema ⟨create_token "k" "a@x.com" 0 5,
        create_token "k" "a@x.com" 0 60⟩)).2.2.2 rfl).1⟩

/-- C8 counterexample.  A successful `login` response body has the keys
`access_token` and `refresh_token`, so it does not contain only the
`email` and `id` fields as the claim states for the login endpoint. -/
theorem c8_login_body_counterexample :
    ((login_endpoint "k" 0 5 60 aliceStore "a@x.com" "pw").1.map
      (fun body => body.map Prod.fst)) = .ok ["access_token", "refresh_token"] :=
  rfl

/-- C9.  `login` never mutates the credential store: on every path
(unknown email, wrong password, success) the store after the call is the
store before it. -/
theorem c9_login_no_state_change (key : String) (now aTtl rTtl : Int)
    (st : Store) (username pw : String) :
    (login key now aTtl rTtl st username pw).2 = st := by
  cases h : st username with
  | none => simp [login, h]
  | some u => by_cases hv : verify_password pw u.password <;> simp [login, h, hv]

/-- C10.  The store operations of `database.py` satisfy the key-value
laws: a `get_data` after `insert_data` on the same email returns the
inserted dict (surviving the JSON dump/load round trip) whatever was there
before (INSERT OR REPLACE); a `get_data` after `delete_data` on the same
email returns None; and either operation leaves `get_data` on every other
email unchanged.  The dict's keys and values are assumed to be strings
that `json.dumps` renders literally (printable ASCII without `"` or
backslash), which holds for everything the application stores. -/
theorem c10_store_kv_laws (db : DB) (e e2 : String) (d : Assoc)
    (h : wfAssoc d = true) (hne : e ≠ e2) :
    get_data (insert_data db e d) e = some (some d) ∧
    get_data (delete_data db e) e = some none ∧
    get_data (insert_data db e d) e2 = get_data db e2 ∧
    get_data (delete_data db e) e2 = get_data db e2 :=
  ⟨get_data_insert_same db e d h, get_data_delete_same db e,
   get_data_insert_other db e e2 d hne, get_data_delete_other db e e2 hne⟩

/-- Witness for C10: over a table already holding a row for `x`, inserting
a new dict under `x` replaces it and reads back equal; deleting `x` reads
back as None; and both leave the key `y` untouched. -/
theorem c10_store_kv_laws_witness :
    get_data (insert_data (insert_data (fun _ => none) "x" [(['a'], ['b'])])
        "x" [(['c'], ['d'])]) "x"
      = some (some [(['c'], ['d'])]) ∧
    get_data (delete_data (insert_data (fun _ => none) "x" [(['a'], ['b'])]) "x") "x"
      = some none ∧
    get_data (insert_data (insert_data (fun _ => none) "x" [(['a'], ['b'])])
        "x" [(['c'], ['d'])]) "y"
      = get_data (insert_data (fun _ => none) "x" [(['a'], ['b'])]) "y" ∧
    get_data (delete_data (insert_data (fun _ => none) "x" [(['a'], ['b'])]) "x") "y"
      = get_data (insert_data (fun _ => none) "x" [(['a'], ['b'])]) "y" :=
  c10_store_kv_laws (insert_data (fun _ => none) "x" [(['a'], ['b'])])
    "x" "y" [(['c'], ['d'])] (by decide) (by decide)

end PFTest
